import Mathlib

/-!
Shallow embedding of `src/src/material/bottom-sheet/bottom-sheet-ref.ts`
(class `MatBottomSheetRef`).

The class reacts to notifications from two collaborators (the container's
animation-state stream and the overlay surface's detachment / backdrop-click /
keydown streams), to its own fallback timers, and to caller invocations of
`dismiss` and writes of the public `disableClose` field.  We embed the
instance as an explicit state record (`MatBottomSheetRef`) together with a
deterministic step function over an input alphabet (`Event`) that covers every
way control can enter the unit.  Every call the unit makes on a collaborator
(`exit`, `dispose`, `detachBackdrop`, `preventDefault`, `setTimeout`,
`clearTimeout`) and every emission on its two subjects is recorded in an
effect trace, so observable behaviour is the trace of `run`.

RxJS `take(1)` subscriptions are embedded as liveness flags (or a counter, for
the per-dismiss "start"-filtered subscription, since `dismiss` can register it
several times); `Subject.complete` marks the subject closed, matching the
completed-stream semantics the unit relies on.  `setTimeout` hands out fresh
numeric handles; a timer fires only while armed, and `clearTimeout` disarms
the handle it is given — so a cleared timer can never fire.
-/

namespace BottomSheetRef

/-- `phaseName` of an Angular animation event. -/
inductive PhaseName where
  | start
  | done
deriving DecidableEq, Repr

/-- `toState` of the container's animation event. -/
inductive ToState where
  | visible
  | hidden
deriving DecidableEq, Repr

/-- The shape of `containerInstance._animationStateChanged` emissions that the
unit inspects: `phaseName`, `toState` and `totalTime` (ms). -/
structure AnimationEvent where
  phaseName : PhaseName
  toState : ToState
  totalTime : Nat
deriving DecidableEq, Repr

/-- `ESCAPE` from `@angular/cdk/keycodes`. -/
def ESCAPE : Nat := 27

/-- An event delivered on the merged `backdropClick()` / `keydownEvents()`
stream: either a backdrop click (`event.type` is not `keydown`) or a keydown
with its `keyCode` and whether `hasModifierKey` holds of it. -/
inductive InputEvent where
  | backdropClick
  | keydown (keyCode : Nat) (modifier : Bool)
deriving DecidableEq, Repr

/-- `bottomSheetConfig` as far as this unit reads it: the optional
`disableClose` flag (`boolean | undefined`). -/
structure BottomSheetConfig where
  disableClose : Option Bool
deriving DecidableEq, Repr

/-- The container as far as construction reads it. -/
structure MatBottomSheetContainer where
  bottomSheetConfig : BottomSheetConfig
deriving DecidableEq, Repr

/-- State of one `MatBottomSheetRef` instance: the class fields
(`disableClose`, `_result`, `_closeFallbackTimeout`, the closed flags of the
`_afterOpened` / `_afterDismissed` subjects) plus the liveness of each
`take(1)` subscription and the set of armed fallback timers.
`startSubCount` counts the active "phaseName == start"-filtered `take(1)`
subscriptions, one per `dismiss` call that passed the guard since the last
`start` animation event. -/
structure MatBottomSheetRef (R : Type) where
  disableClose : Option Bool
  result : Option R
  afterOpenedClosed : Bool
  afterDismissedClosed : Bool
  closeFallbackTimeout : Option Nat
  openedSubActive : Bool
  disposeSubActive : Bool
  detachSubActive : Bool
  startSubCount : Nat
  armedTimers : List Nat
  nextTimerId : Nat
deriving DecidableEq, Repr

/-- One observable action of the unit on its collaborators or subjects. -/
inductive Effect (R : Type) where
  | afterOpenedNext
  | afterOpenedComplete
  | afterDismissedNext (r : Option R)
  | afterDismissedComplete
  | disposeOverlay
  | detachBackdrop
  | exitContainer
  | preventDefault
  | setTimeout (id : Nat) (delay : Nat)
  | clearFallbackTimeout (handle : Option Nat)
deriving DecidableEq, Repr

/-- One way control enters the unit: a container animation event, a surface
detachment notification, a backdrop-click/keydown delivery, a timer firing,
a caller invoking `dismiss(result)`, or a caller writing `disableClose`. -/
inductive Event (R : Type) where
  | animation (e : AnimationEvent)
  | detachment
  | input (e : InputEvent)
  | timerFire (id : Nat)
  | dismissCall (r : Option R)
  | setDisableClose (b : Option Bool)
deriving DecidableEq, Repr

/-- JavaScript truthiness of `boolean | undefined` (`undefined` is falsy). -/
def truthy : Option Bool → Bool
  | some b => b
  | none => false

/-- `dismiss(result?)`: if `_afterDismissed` is not closed, register the
"start"-filtered `take(1)` subscription, store the result, and call
`containerInstance.exit()`; otherwise do nothing. -/
def dismiss {R : Type} (s : MatBottomSheetRef R) (result : Option R) :
    MatBottomSheetRef R × List (Effect R) :=
  if s.afterDismissedClosed then (s, [])
  else
    ({ s with startSubCount := s.startSubCount + 1, result := result },
     [Effect.exitContainer])

/-- Run the `n` pending "start"-filtered subscription handlers on a `start`
animation event: each arms a fresh fallback timer for `delay` ms (the handle
overwriting `_closeFallbackTimeout`) and detaches the backdrop. -/
def armTimers {R : Type} (delay : Nat) :
    Nat → MatBottomSheetRef R → MatBottomSheetRef R × List (Effect R)
  | 0, s => (s, [])
  | n + 1, s =>
    let id := s.nextTimerId
    let s1 : MatBottomSheetRef R :=
      { s with
          nextTimerId := id + 1
          closeFallbackTimeout := some id
          armedTimers := s.armedTimers ++ [id] }
    let rest := armTimers delay n s1
    (rest.1, Effect.setTimeout id delay :: Effect.detachBackdrop :: rest.2)

/-- Deliver one animation event to the three animation subscriptions, in
registration order: the done/visible `take(1)` handler completes
`_afterOpened`; the done/hidden `take(1)` handler clears the fallback timeout
and disposes the overlay; every pending "start"-filtered `take(1)` handler
arms its fallback timer and detaches the backdrop. -/
def onAnimation {R : Type} (s : MatBottomSheetRef R) (e : AnimationEvent) :
    MatBottomSheetRef R × List (Effect R) :=
  match e.phaseName, e.toState with
  | PhaseName.done, ToState.visible =>
    if s.openedSubActive then
      ({ s with openedSubActive := false, afterOpenedClosed := true },
       [Effect.afterOpenedNext, Effect.afterOpenedComplete])
    else (s, [])
  | PhaseName.done, ToState.hidden =>
    if s.disposeSubActive then
      ({ s with
           disposeSubActive := false
           armedTimers :=
             match s.closeFallbackTimeout with
             | some h => s.armedTimers.erase h
             | none => s.armedTimers },
       [Effect.clearFallbackTimeout s.closeFallbackTimeout,
        Effect.disposeOverlay])
    else (s, [])
  | PhaseName.start, _ =>
    armTimers (e.totalTime + 100) s.startSubCount { s with startSubCount := 0 }

/-- One reaction of the instance to an incoming event. -/
def step {R : Type} (s : MatBottomSheetRef R) : Event R →
    MatBottomSheetRef R × List (Effect R)
  | Event.animation e => onAnimation s e
  | Event.detachment =>
    if s.detachSubActive then
      ({ s with detachSubActive := false, afterDismissedClosed := true },
       [Effect.afterDismissedNext s.result, Effect.afterDismissedComplete])
    else (s, [])
  | Event.input InputEvent.backdropClick =>
    if truthy s.disableClose then (s, [])
    else
      let d := dismiss s none
      (d.1, Effect.preventDefault :: d.2)
  | Event.input (InputEvent.keydown code m) =>
    if code = ESCAPE then
      if truthy s.disableClose || m then (s, [])
      else
        let d := dismiss s none
        (d.1, Effect.preventDefault :: d.2)
    else (s, [])
  | Event.timerFire id =>
    if id ∈ s.armedTimers then
      ({ s with armedTimers := s.armedTimers.erase id },
       [Effect.disposeOverlay])
    else (s, [])
  | Event.dismissCall r => dismiss s r
  | Event.setDisableClose b => ({ s with disableClose := b }, [])

/-- The constructor: copy `containerInstance.bottomSheetConfig.disableClose`
into the public field and register the four subscriptions (all initially
live, no timer armed, no result stored, both subjects open). -/
def mkRef (R : Type) (containerInstance : MatBottomSheetContainer) :
    MatBottomSheetRef R :=
  { disableClose := containerInstance.bottomSheetConfig.disableClose
    result := none
    afterOpenedClosed := false
    afterDismissedClosed := false
    closeFallbackTimeout := none
    openedSubActive := true
    disposeSubActive := true
    detachSubActive := true
    startSubCount := 0
    armedTimers := []
    nextTimerId := 0 }

/-- A freshly constructed instance whose config carries `dc` as
`disableClose`. -/
def init (R : Type) (dc : Option Bool) : MatBottomSheetRef R :=
  mkRef R ⟨⟨dc⟩⟩

/-- Deliver a list of events in order, collecting the effect trace. -/
def run {R : Type} (s : MatBottomSheetRef R) :
    List (Event R) → MatBottomSheetRef R × List (Effect R)
  | [] => (s, [])
  | e :: es =>
    let p := step s e
    let q := run p.1 es
    (q.1, p.2 ++ q.2)

/-- Number of `dispose()` calls on the overlay surface in a trace. -/
def disposeCount {R : Type} (tr : List (Effect R)) : Nat :=
  (tr.filter fun e => match e with | Effect.disposeOverlay => true | _ => false).length

/-- Number of `exit()` calls on the container in a trace. -/
def exitCount {R : Type} (tr : List (Effect R)) : Nat :=
  (tr.filter fun e => match e with | Effect.exitContainer => true | _ => false).length

/-- Number of emissions on the `_afterDismissed` subject in a trace. -/
def afterDismissedNextCount {R : Type} (tr : List (Effect R)) : Nat :=
  (tr.filter fun e => match e with | Effect.afterDismissedNext _ => true | _ => false).length

/-- Number of emissions on the `_afterOpened` subject in a trace. -/
def afterOpenedNextCount {R : Type} (tr : List (Effect R)) : Nat :=
  (tr.filter fun e => match e with | Effect.afterOpenedNext => true | _ => false).length

/-- Number of `setTimeout` calls (fallback-timer armings) in a trace. -/
def setTimeoutCount {R : Type} (tr : List (Effect R)) : Nat :=
  (tr.filter fun e => match e with | Effect.setTimeout _ _ => true | _ => false).length

/-- Number of `detachBackdrop()` calls in a trace. -/
def detachBackdropCount {R : Type} (tr : List (Effect R)) : Nat :=
  (tr.filter fun e => match e with | Effect.detachBackdrop => true | _ => false).length

/-- Events that can re-trigger `dismiss`: a caller `dismiss()` invocation or a
delivery on the merged backdrop-click/keydown stream. -/
def isDismissTrigger {R : Type} : Event R → Bool
  | Event.dismissCall _ => true
  | Event.input _ => true
  | _ => false

/-- An animation event with `phaseName == done` and `toState == hidden`. -/
def isDoneHidden {R : Type} : Event R → Bool
  | Event.animation e =>
    match e.phaseName, e.toState with
    | PhaseName.done, ToState.hidden => true
    | _, _ => false
  | _ => false

/-- An animation event with `phaseName == done` and `toState == visible`. -/
def isDoneVisible {R : Type} : Event R → Bool
  | Event.animation e =>
    match e.phaseName, e.toState with
    | PhaseName.done, ToState.visible => true
    | _, _ => false
  | _ => false

/-- An animation event with `phaseName == start`. -/
def isStartPhase {R : Type} : Event R → Bool
  | Event.animation e =>
    match e.phaseName with
    | PhaseName.start => true
    | _ => false
  | _ => false

/-- The last value passed to a `dismissCall` before the first detachment
notification, scanning left to right from `acc`. -/
def lastDismissedFrom {R : Type} (acc : Option R) : List (Event R) → Option R
  | [] => acc
  | Event.dismissCall r :: es => lastDismissedFrom r es
  | Event.detachment :: _ => acc
  | _ :: es => lastDismissedFrom acc es

end BottomSheetRef

namespace BottomSheetRef

/-- An event delivered on the merged backdrop-click/keydown stream. -/
def isInputEvent {R : Type} : Event R → Bool
  | Event.input _ => true
  | _ => false

theorem disposeCount_append {R : Type} (a b : List (Effect R)) :
    disposeCount (a ++ b) = disposeCount a + disposeCount b := by
  simp [disposeCount, List.filter_append]

theorem exitCount_append {R : Type} (a b : List (Effect R)) :
    exitCount (a ++ b) = exitCount a + exitCount b := by
  simp [exitCount, List.filter_append]

theorem afterDismissedNextCount_append {R : Type} (a b : List (Effect R)) :
    afterDismissedNextCount (a ++ b) =
      afterDismissedNextCount a + afterDismissedNextCount b := by
  simp [afterDismissedNextCount, List.filter_append]

theorem afterOpenedNextCount_append {R : Type} (a b : List (Effect R)) :
    afterOpenedNextCount (a ++ b) =
      afterOpenedNextCount a + afterOpenedNextCount b := by
  simp [afterOpenedNextCount, List.filter_append]

theorem setTimeoutCount_append {R : Type} (a b : List (Effect R)) :
    setTimeoutCount (a ++ b) = setTimeoutCount a + setTimeoutCount b := by
  simp [setTimeoutCount, List.filter_append]

theorem detachBackdropCount_append {R : Type} (a b : List (Effect R)) :
    detachBackdropCount (a ++ b) =
      detachBackdropCount a + detachBackdropCount b := by
  simp [detachBackdropCount, List.filter_append]

/-- The guard: once `_afterDismissed` is closed, `dismiss` does nothing. -/
theorem dismiss_of_closed {R : Type} (s : MatBottomSheetRef R) (r : Option R)
    (h : s.afterDismissedClosed = true) : dismiss s r = (s, []) := by
  simp [dismiss, h]

/-- While `_afterDismissed` is open, `dismiss` registers one more
start-filtered subscription, stores the result, and calls exit. -/
theorem dismiss_of_open {R : Type} (s : MatBottomSheetRef R) (r : Option R)
    (h : s.afterDismissedClosed = false) :
    dismiss s r =
      ({ s with startSubCount := s.startSubCount + 1, result := r },
       [Effect.exitContainer]) := by
  simp [dismiss, h]

/-- The start-event handlers only touch the timer bookkeeping fields. -/
theorem armTimers_frame {R : Type} (d : Nat) :
    ∀ (n : Nat) (s : MatBottomSheetRef R),
      (armTimers d n s).1.disableClose = s.disableClose ∧
      (armTimers d n s).1.result = s.result ∧
      (armTimers d n s).1.afterOpenedClosed = s.afterOpenedClosed ∧
      (armTimers d n s).1.afterDismissedClosed = s.afterDismissedClosed ∧
      (armTimers d n s).1.openedSubActive = s.openedSubActive ∧
      (armTimers d n s).1.disposeSubActive = s.disposeSubActive ∧
      (armTimers d n s).1.detachSubActive = s.detachSubActive ∧
      (armTimers d n s).1.startSubCount = s.startSubCount := by
  intro n
  induction n with
  | zero => intro s; simp [armTimers]
  | succ n ih => intro s; simp [armTimers, ih]

/-- The start-event handlers emit only `setTimeout` and `detachBackdrop`. -/
theorem armTimers_counts {R : Type} (d : Nat) :
    ∀ (n : Nat) (s : MatBottomSheetRef R),
      disposeCount (armTimers d n s).2 = 0 ∧
      exitCount (armTimers d n s).2 = 0 ∧
      afterDismissedNextCount (armTimers d n s).2 = 0 ∧
      afterOpenedNextCount (armTimers d n s).2 = 0 := by
  intro n
  induction n with
  | zero =>
    intro s
    simp [armTimers, disposeCount, exitCount, afterDismissedNextCount,
      afterOpenedNextCount]
  | succ n ih =>
    intro s
    simp [armTimers, disposeCount, exitCount, afterDismissedNextCount,
      afterOpenedNextCount, List.filter] at ih ⊢
    exact ih _

/-- Setting `startSubCount` to its current value of zero changes nothing. -/
theorem set_startSubCount_zero {R : Type} (s : MatBottomSheetRef R)
    (h : s.startSubCount = 0) :
    ({ s with startSubCount := 0 } : MatBottomSheetRef R) = s := by
  cases s
  simp_all

end BottomSheetRef

namespace BottomSheetRef

/-- Effects of the start-event handlers are timer armings and backdrop
detachments only. -/
theorem armTimers_mem {R : Type} (d : Nat) :
    ∀ (n : Nat) (s : MatBottomSheetRef R) (eff : Effect R),
      eff ∈ (armTimers d n s).2 →
      (∃ i, eff = Effect.setTimeout i d) ∨ eff = Effect.detachBackdrop := by
  intro n
  induction n with
  | zero => intro s eff h; simp [armTimers] at h
  | succ n ih =>
    intro s eff h
    simp [armTimers] at h
    rcases h with h | h | h
    · exact Or.inl ⟨_, h⟩
    · exact Or.inr h
    · exact ih _ _ h

/-- One step changes the `_afterDismissed` emission count by exactly the
take(1) potential it consumes. -/
theorem step_adn {R : Type} (s : MatBottomSheetRef R) (e : Event R) :
    afterDismissedNextCount (step s e).2 +
      (if (step s e).1.detachSubActive then 1 else 0) =
    (if s.detachSubActive then 1 else 0) := by
  cases e with
  | animation a =>
    obtain ⟨p, t, tt⟩ := a
    cases p with
    | start =>
      cases t <;>
      · have hf := (armTimers_frame (tt + 100) s.startSubCount
          { s with startSubCount := 0 }).2.2.2.2.2.2.1
        have hc := (armTimers_counts (tt + 100) s.startSubCount
          { s with startSubCount := 0 }).2.2.1
        simp [step, onAnimation, hf, hc]
    | done =>
      cases t with
      | visible =>
        by_cases h : s.openedSubActive <;>
          simp [step, onAnimation, h, afterDismissedNextCount, List.filter]
      | hidden =>
        by_cases h : s.disposeSubActive <;>
          simp [step, onAnimation, h, afterDismissedNextCount, List.filter]
  | detachment =>
    by_cases h : s.detachSubActive <;>
      simp [step, h, afterDismissedNextCount, List.filter]
  | input ie =>
    cases ie with
    | backdropClick =>
      by_cases h : truthy s.disableClose <;>
        by_cases h2 : s.afterDismissedClosed <;>
          simp [step, h, dismiss, h2, afterDismissedNextCount, List.filter]
    | keydown c m =>
      by_cases hc : c = ESCAPE <;>
        by_cases h : truthy s.disableClose <;>
          by_cases h2 : s.afterDismissedClosed <;>
            cases m <;>
              simp [step, hc, h, dismiss, h2, afterDismissedNextCount,
                List.filter]
  | timerFire id =>
    by_cases h : id ∈ s.armedTimers <;>
      simp [step, h, afterDismissedNextCount, List.filter]
  | dismissCall r =>
    by_cases h2 : s.afterDismissedClosed <;>
      simp [step, dismiss, h2, afterDismissedNextCount, List.filter]
  | setDisableClose b => simp [step, afterDismissedNextCount, List.filter]

/-- One step changes the `_afterOpened` emission count by exactly the take(1)
potential it consumes. -/
theorem step_aon {R : Type} (s : MatBottomSheetRef R) (e : Event R) :
    afterOpenedNextCount (step s e).2 +
      (if (step s e).1.openedSubActive then 1 else 0) =
    (if s.openedSubActive then 1 else 0) := by
  cases e with
  | animation a =>
    obtain ⟨p, t, tt⟩ := a
    cases p with
    | start =>
      cases t <;>
      · have hf := (armTimers_frame (tt + 100) s.startSubCount
          { s with startSubCount := 0 }).2.2.2.2.1
        have hc := (armTimers_counts (tt + 100) s.startSubCount
          { s with startSubCount := 0 }).2.2.2
        simp [step, onAnimation, hf, hc]
    | done =>
      cases t with
      | visible =>
        by_cases h : s.openedSubActive <;>
          simp [step, onAnimation, h, afterOpenedNextCount, List.filter]
      | hidden =>
        by_cases h : s.disposeSubActive <;>
          simp [step, onAnimation, h, afterOpenedNextCount, List.filter]
  | detachment =>
    by_cases h : s.detachSubActive <;>
      simp [step, h, afterOpenedNextCount, List.filter]
  | input ie =>
    cases ie with
    | backdropClick =>
      by_cases h : truthy s.disableClose <;>
        by_cases h2 : s.afterDismissedClosed <;>
          simp [step, h, dismiss, h2, afterOpenedNextCount, List.filter]
    | keydown c m =>
      by_cases hc : c = ESCAPE <;>
        by_cases h : truthy s.disableClose <;>
          by_cases h2 : s.afterDismissedClosed <;>
            cases m <;>
              simp [step, hc, h, dismiss, h2, afterOpenedNextCount,
                List.filter]
  | timerFire id =>
    by_cases h : id ∈ s.armedTimers <;>
      simp [step, h, afterOpenedNextCount, List.filter]
  | dismissCall r =>
    by_cases h2 : s.afterDismissedClosed <;>
      simp [step, dismiss, h2, afterOpenedNextCount, List.filter]
  | setDisableClose b => simp [step, afterOpenedNextCount, List.filter]

/-- Over a whole run, `_afterDismissed` emissions equal the consumed take(1)
potential of the detachment subscription. -/
theorem run_adn {R : Type} :
    ∀ (es : List (Event R)) (s : MatBottomSheetRef R),
      afterDismissedNextCount (run s es).2 +
        (if (run s es).1.detachSubActive then 1 else 0) =
      (if s.detachSubActive then 1 else 0) := by
  intro es
  induction es with
  | nil => intro s; simp [run, afterDismissedNextCount]
  | cons e es ih =>
    intro s
    have h1 := step_adn s e
    have h2 := ih (step s e).1
    simp only [run, afterDismissedNextCount_append]
    omega

/-- Over a whole run, `_afterOpened` emissions equal the consumed take(1)
potential of the done/visible subscription. -/
theorem run_aon {R : Type} :
    ∀ (es : List (Event R)) (s : MatBottomSheetRef R),
      afterOpenedNextCount (run s es).2 +
        (if (run s es).1.openedSubActive then 1 else 0) =
      (if s.openedSubActive then 1 else 0) := by
  intro es
  induction es with
  | nil => intro s; simp [run, afterOpenedNextCount]
  | cons e es ih =>
    intro s
    have h1 := step_aon s e
    have h2 := ih (step s e).1
    simp only [run, afterOpenedNextCount_append]
    omega

end BottomSheetRef

namespace BottomSheetRef

/-- An `_afterDismissed` emission can only be produced by a detachment
notification, and its payload is the stored result at that moment. -/
theorem adn_mem_step {R : Type} (s : MatBottomSheetRef R) (e : Event R)
    (r : Option R) (h : Effect.afterDismissedNext r ∈ (step s e).2) :
    e = Event.detachment ∧ r = s.result := by
  cases e with
  | animation a =>
    obtain ⟨p, t, tt⟩ := a
    exfalso
    cases p with
    | start =>
      cases t <;>
      · have := armTimers_mem (tt + 100) s.startSubCount
          { s with startSubCount := 0 } _ (by simpa [step, onAnimation] using h)
        simp at this
    | done =>
      cases t with
      | visible =>
        by_cases ho : s.openedSubActive <;> simp [step, onAnimation, ho] at h
      | hidden =>
        by_cases ho : s.disposeSubActive <;> simp [step, onAnimation, ho] at h
  | detachment =>
    by_cases hd : s.detachSubActive <;> simp [step, hd] at h
    · exact ⟨rfl, h⟩
  | input ie =>
    exfalso
    cases ie with
    | backdropClick =>
      by_cases hb : truthy s.disableClose <;>
        by_cases h2 : s.afterDismissedClosed <;>
          simp [step, hb, dismiss, h2] at h
    | keydown c m =>
      by_cases hc : c = ESCAPE <;>
        by_cases hb : truthy s.disableClose <;>
          by_cases h2 : s.afterDismissedClosed <;>
            cases m <;> simp [step, hc, hb, dismiss, h2] at h
  | timerFire id =>
    exfalso
    by_cases ht : id ∈ s.armedTimers <;> simp [step, ht] at h
  | dismissCall r2 =>
    exfalso
    by_cases h2 : s.afterDismissedClosed <;> simp [step, dismiss, h2] at h
  | setDisableClose b => exfalso; simp [step] at h

/-- An `_afterOpened` emission can only be produced by an animation event with
phaseName done and toState visible. -/
theorem aon_mem_step {R : Type} (s : MatBottomSheetRef R) (e : Event R)
    (h : Effect.afterOpenedNext ∈ (step s e).2) : isDoneVisible e = true := by
  cases e with
  | animation a =>
    obtain ⟨p, t, tt⟩ := a
    cases p with
    | start =>
      exfalso
      cases t <;>
      · have := armTimers_mem (tt + 100) s.startSubCount
          { s with startSubCount := 0 } _ (by simpa [step, onAnimation] using h)
        simp at this
    | done =>
      cases t with
      | visible => simp [isDoneVisible]
      | hidden =>
        exfalso
        by_cases ho : s.disposeSubActive <;> simp [step, onAnimation, ho] at h
  | detachment =>
    exfalso
    by_cases hd : s.detachSubActive <;> simp [step, hd] at h
  | input ie =>
    exfalso
    cases ie with
    | backdropClick =>
      by_cases hb : truthy s.disableClose <;>
        by_cases h2 : s.afterDismissedClosed <;>
          simp [step, hb, dismiss, h2] at h
    | keydown c m =>
      by_cases hc : c = ESCAPE <;>
        by_cases hb : truthy s.disableClose <;>
          by_cases h2 : s.afterDismissedClosed <;>
            cases m <;> simp [step, hc, hb, dismiss, h2] at h
  | timerFire id =>
    exfalso
    by_cases ht : id ∈ s.armedTimers <;> simp [step, ht] at h
  | dismissCall r2 =>
    exfalso
    by_cases h2 : s.afterDismissedClosed <;> simp [step, dismiss, h2] at h
  | setDisableClose b => exfalso; simp [step] at h

/-- If no done/visible animation event is delivered, `_afterOpened` never
emits. -/
theorem run_aon_zero {R : Type} :
    ∀ (es : List (Event R)) (s : MatBottomSheetRef R),
      (∀ e ∈ es, isDoneVisible e = false) →
      afterOpenedNextCount (run s es).2 = 0 := by
  intro es
  induction es with
  | nil => intro s _; simp [run, afterOpenedNextCount]
  | cons e es ih =>
    intro s h
    simp only [run, afterOpenedNextCount_append]
    have h1 : afterOpenedNextCount (step s e).2 = 0 := by
      by_contra hne
      have : Effect.afterOpenedNext ∈ (step s e).2 := by
        rcases List.length_pos.mp (Nat.pos_of_ne_zero hne) with hh
        rcases List.exists_mem_of_length_pos (List.length_pos.mpr hh) with ⟨x, hx⟩
        have hx2 := List.mem_filter.mp hx
        cases x <;> simp_all [afterOpenedNextCount]
      have := aon_mem_step s e this
      have h2 := h e (List.mem_cons_self e es)
      rw [this] at h2
      exact absurd h2 (by decide)
    rw [h1, ih (step s e).1 fun x hx => h x (List.mem_cons_of_mem e hx)]

end BottomSheetRef

namespace BottomSheetRef

/-- A start-phase animation step only touches the timer bookkeeping and
resets the pending start-subscription count. -/
theorem step_start {R : Type} (s : MatBottomSheetRef R) (t : ToState)
    (tt : Nat) :
    (step s (Event.animation ⟨PhaseName.start, t, tt⟩)).1.disableClose = s.disableClose ∧
    (step s (Event.animation ⟨PhaseName.start, t, tt⟩)).1.result = s.result ∧
    (step s (Event.animation ⟨PhaseName.start, t, tt⟩)).1.afterOpenedClosed = s.afterOpenedClosed ∧
    (step s (Event.animation ⟨PhaseName.start, t, tt⟩)).1.afterDismissedClosed = s.afterDismissedClosed ∧
    (step s (Event.animation ⟨PhaseName.start, t, tt⟩)).1.openedSubActive = s.openedSubActive ∧
    (step s (Event.animation ⟨PhaseName.start, t, tt⟩)).1.disposeSubActive = s.disposeSubActive ∧
    (step s (Event.animation ⟨PhaseName.start, t, tt⟩)).1.detachSubActive = s.detachSubActive ∧
    (step s (Event.animation ⟨PhaseName.start, t, tt⟩)).1.startSubCount = 0 := by
  cases t <;>
    simpa [step, onAnimation] using
      armTimers_frame (tt + 100) s.startSubCount { s with startSubCount := 0 }

/-- Once `_afterDismissed` is closed, no step writes `_result` and the subject
stays closed. -/
theorem step_frozen {R : Type} (s : MatBottomSheetRef R) (e : Event R)
    (h : s.afterDismissedClosed = true) :
    (step s e).1.result = s.result ∧
      (step s e).1.afterDismissedClosed = true := by
  cases e with
  | animation a =>
    obtain ⟨p, t, tt⟩ := a
    cases p with
    | start =>
      have hs := step_start s t tt
      exact ⟨hs.2.1, hs.2.2.2.1.trans h⟩
    | done =>
      cases t with
      | visible =>
        by_cases ho : s.openedSubActive <;> simp [step, onAnimation, ho, h]
      | hidden =>
        by_cases ho : s.disposeSubActive <;> simp [step, onAnimation, ho, h]
  | detachment =>
    by_cases hd : s.detachSubActive <;> simp [step, hd, h]
  | input ie =>
    cases ie with
    | backdropClick =>
      by_cases hb : truthy s.disableClose <;>
        simp [step, hb, dismiss, h]
    | keydown c m =>
      by_cases hc : c = ESCAPE <;>
        by_cases hb : truthy s.disableClose <;>
          cases m <;> simp [step, hc, hb, dismiss, h]
  | timerFire id =>
    by_cases ht : id ∈ s.armedTimers <;> simp [step, ht, h]
  | dismissCall r2 => simp [step, dismiss, h]
  | setDisableClose b => simp [step, h]

/-- Once `_afterDismissed` is closed, `_result` is frozen for the rest of the
run. -/
theorem run_frozen {R : Type} :
    ∀ (es : List (Event R)) (s : MatBottomSheetRef R),
      s.afterDismissedClosed = true →
      (run s es).1.result = s.result ∧
        (run s es).1.afterDismissedClosed = true := by
  intro es
  induction es with
  | nil => intro s h; simp [run, h]
  | cons e es ih =>
    intro s h
    have h1 := step_frozen s e h
    have h2 := ih (step s e).1 h1.2
    simp only [run]
    exact ⟨h2.1.trans h1.1, h2.2⟩

end BottomSheetRef

namespace BottomSheetRef

/-- Animation events never write `_result`, never close `_afterDismissed`,
and never consume the detachment subscription. -/
theorem step_animation_frame {R : Type} (s : MatBottomSheetRef R)
    (a : AnimationEvent) :
    (step s (Event.animation a)).1.result = s.result ∧
    (step s (Event.animation a)).1.afterDismissedClosed = s.afterDismissedClosed ∧
    (step s (Event.animation a)).1.detachSubActive = s.detachSubActive := by
  obtain ⟨p, t, tt⟩ := a
  cases p with
  | start =>
    exact ⟨(step_start s t tt).2.1, (step_start s t tt).2.2.2.1,
      (step_start s t tt).2.2.2.2.2.2.1⟩
  | done =>
    cases t with
    | visible => by_cases ho : s.openedSubActive <;> simp [step, onAnimation, ho]
    | hidden => by_cases ho : s.disposeSubActive <;> simp [step, onAnimation, ho]

/-- Timer firings never write `_result`, never close `_afterDismissed`, and
never consume the detachment subscription. -/
theorem step_timer_frame {R : Type} (s : MatBottomSheetRef R) (id : Nat) :
    (step s (Event.timerFire id)).1.result = s.result ∧
    (step s (Event.timerFire id)).1.afterDismissedClosed = s.afterDismissedClosed ∧
    (step s (Event.timerFire id)).1.detachSubActive = s.detachSubActive := by
  by_cases ht : id ∈ s.armedTimers <;> simp [step, ht]

/-- Before the first detachment, `_result` holds the value of the latest
`dismiss` call (input events excluded, i.e. only programmatic dismissals). -/
theorem run_result_tracks {R : Type} :
    ∀ (es : List (Event R)) (s : MatBottomSheetRef R),
      s.afterDismissedClosed = false → s.detachSubActive = true →
      (∀ e ∈ es, isInputEvent e = false) →
      (run s es).1.result = lastDismissedFrom s.result es := by
  intro es
  induction es with
  | nil => intro s _ _ _; simp [run, lastDismissedFrom]
  | cons e es ih =>
    intro s h1 h2 h3
    have h3r : ∀ x ∈ es, isInputEvent x = false := fun x hx =>
      h3 x (List.mem_cons_of_mem e hx)
    cases e with
    | animation a =>
      have hf := step_animation_frame s a
      simp only [run]
      rw [ih _ (hf.2.1.trans h1) (hf.2.2.trans h2) h3r, hf.1]
      rfl
    | detachment =>
      simp only [run, step, h2, if_pos]
      have := run_frozen es
        ({ s with detachSubActive := false, afterDismissedClosed := true } :
          MatBottomSheetRef R) (by simp)
      rw [this.1]
      rfl
    | input ie =>
      exact absurd (h3 _ (List.mem_cons_self _ es)) (by simp [isInputEvent])
    | timerFire id =>
      have hf := step_timer_frame s id
      simp only [run]
      rw [ih _ (hf.2.1.trans h1) (hf.2.2.trans h2) h3r, hf.1]
      rfl
    | dismissCall r =>
      simp only [run, step, dismiss_of_open s r h1]
      rw [ih ({ s with startSubCount := s.startSubCount + 1, result := r } :
        MatBottomSheetRef R) (by simp [h1]) (by simp [h2]) h3r]
      rfl
    | setDisableClose b =>
      simp only [run, step]
      rw [ih ({ s with disableClose := b } : MatBottomSheetRef R)
        (by simp [h1]) (by simp [h2]) h3r]
      rfl

end BottomSheetRef

namespace BottomSheetRef

/-- A start animation event with no pending start-subscription does nothing. -/
theorem step_start_of_zero {R : Type} (s : MatBottomSheetRef R) (t : ToState)
    (tt : Nat) (h : s.startSubCount = 0) :
    step s (Event.animation ⟨PhaseName.start, t, tt⟩) = (s, []) := by
  cases t <;> simp [step, onAnimation, h, armTimers, set_startSubCount_zero s h]

/-- Once the done/hidden handler has run, no timer is pending and no new one
can be armed without a fresh dismiss trigger, so no further disposal happens. -/
theorem run_quiet_disposed {R : Type} :
    ∀ (es : List (Event R)) (s : MatBottomSheetRef R),
      s.armedTimers = [] → s.startSubCount = 0 → s.disposeSubActive = false →
      (∀ e ∈ es, isDismissTrigger e = false) →
      disposeCount (run s es).2 = 0 := by
  intro es
  induction es with
  | nil => intro s _ _ _ _; simp [run, disposeCount]
  | cons e es ih =>
    intro s h1 h2 h3 h4
    have h4r : ∀ x ∈ es, isDismissTrigger x = false := fun x hx =>
      h4 x (List.mem_cons_of_mem e hx)
    simp only [run, disposeCount_append]
    cases e with
    | animation a =>
      obtain ⟨p, t, tt⟩ := a
      cases p with
      | start =>
        rw [step_start_of_zero s t tt h2]
        simpa [disposeCount] using ih s h1 h2 h3 h4r
      | done =>
        cases t with
        | visible =>
          by_cases ho : s.openedSubActive
          · simpa [step, onAnimation, ho, disposeCount] using
              ih { s with openedSubActive := false, afterOpenedClosed := true }
                h1 h2 h3 h4r
          · simpa [step, onAnimation, ho, disposeCount] using ih s h1 h2 h3 h4r
        | hidden =>
          simpa [step, onAnimation, h3, disposeCount] using ih s h1 h2 h3 h4r
    | detachment =>
      by_cases hd : s.detachSubActive
      · simpa [step, hd, disposeCount] using
          ih { s with detachSubActive := false, afterDismissedClosed := true }
            h1 h2 h3 h4r
      · simpa [step, hd, disposeCount] using ih s h1 h2 h3 h4r
    | input ie =>
      exact absurd (h4 _ (List.mem_cons_self _ es)) (by simp [isDismissTrigger])
    | timerFire id =>
      simpa [step, h1, disposeCount] using ih s h1 h2 h3 h4r
    | dismissCall r =>
      exact absurd (h4 _ (List.mem_cons_self _ es)) (by simp [isDismissTrigger])
    | setDisableClose b =>
      simpa [step, disposeCount] using
        ih { s with disableClose := b } h1 h2 h3 h4r

/-- With no pending timer or start-subscription, no dismiss trigger and no
done/hidden event, the unit never disposes. -/
theorem run_quiet_nodonehidden {R : Type} :
    ∀ (es : List (Event R)) (s : MatBottomSheetRef R),
      s.armedTimers = [] → s.startSubCount = 0 →
      (∀ e ∈ es, isDismissTrigger e = false ∧ isDoneHidden e = false) →
      disposeCount (run s es).2 = 0 := by
  intro es
  induction es with
  | nil => intro s _ _ _; simp [run, disposeCount]
  | cons e es ih =>
    intro s h1 h2 h4
    have h4r : ∀ x ∈ es, isDismissTrigger x = false ∧ isDoneHidden x = false :=
      fun x hx => h4 x (List.mem_cons_of_mem e hx)
    simp only [run, disposeCount_append]
    cases e with
    | animation a =>
      obtain ⟨p, t, tt⟩ := a
      cases p with
      | start =>
        rw [step_start_of_zero s t tt h2]
        simpa [disposeCount] using ih s h1 h2 h4r
      | done =>
        cases t with
        | visible =>
          by_cases ho : s.openedSubActive
          · simpa [step, onAnimation, ho, disposeCount] using
              ih { s with openedSubActive := false, afterOpenedClosed := true }
                h1 h2 h4r
          · simpa [step, onAnimation, ho, disposeCount] using ih s h1 h2 h4r
        | hidden =>
          exact absurd (h4 _ (List.mem_cons_self _ es)).2 (by simp [isDoneHidden])
    | detachment =>
      by_cases hd : s.detachSubActive
      · simpa [step, hd, disposeCount] using
          ih { s with detachSubActive := false, afterDismissedClosed := true }
            h1 h2 h4r
      · simpa [step, hd, disposeCount] using ih s h1 h2 h4r
    | input ie =>
      exact absurd (h4 _ (List.mem_cons_self _ es)).1 (by simp [isDismissTrigger])
    | timerFire id =>
      simpa [step, h1, disposeCount] using ih s h1 h2 h4r
    | dismissCall r =>
      exact absurd (h4 _ (List.mem_cons_self _ es)).1 (by simp [isDismissTrigger])
    | setDisableClose b =>
      simpa [step, disposeCount] using
        ih { s with disableClose := b } h1 h2 h4r

end BottomSheetRef

namespace BottomSheetRef

/-- Without a start-phase animation event, no fallback timer is ever armed and
the backdrop is never detached; without a done/hidden event either, the
overlay is never disposed — no matter how often dismiss is triggered. -/
theorem run_nostart {R : Type} :
    ∀ (es : List (Event R)) (s : MatBottomSheetRef R),
      s.armedTimers = [] →
      (∀ e ∈ es, isStartPhase e = false ∧ isDoneHidden e = false) →
      setTimeoutCount (run s es).2 = 0 ∧
        detachBackdropCount (run s es).2 = 0 ∧
        disposeCount (run s es).2 = 0 := by
  intro es
  induction es with
  | nil =>
    intro s _ _
    simp [run, setTimeoutCount, detachBackdropCount, disposeCount]
  | cons e es ih =>
    intro s h1 h4
    have h4r : ∀ x ∈ es, isStartPhase x = false ∧ isDoneHidden x = false :=
      fun x hx => h4 x (List.mem_cons_of_mem e hx)
    simp only [run, setTimeoutCount_append, detachBackdropCount_append,
      disposeCount_append]
    cases e with
    | animation a =>
      obtain ⟨p, t, tt⟩ := a
      cases p with
      | start =>
        exact absurd (h4 _ (List.mem_cons_self _ es)).1 (by simp [isStartPhase])
      | done =>
        cases t with
        | visible =>
          by_cases ho : s.openedSubActive
          · simpa [step, onAnimation, ho, setTimeoutCount, detachBackdropCount,
              disposeCount] using
              ih { s with openedSubActive := false, afterOpenedClosed := true }
                h1 h4r
          · simpa [step, onAnimation, ho, setTimeoutCount, detachBackdropCount,
              disposeCount] using ih s h1 h4r
        | hidden =>
          exact absurd (h4 _ (List.mem_cons_self _ es)).2 (by simp [isDoneHidden])
    | detachment =>
      by_cases hd : s.detachSubActive
      · simpa [step, hd, setTimeoutCount, detachBackdropCount, disposeCount]
          using
          ih { s with detachSubActive := false, afterDismissedClosed := true }
            h1 h4r
      · simpa [step, hd, setTimeoutCount, detachBackdropCount, disposeCount]
          using ih s h1 h4r
    | input ie =>
      cases ie with
      | backdropClick =>
        by_cases hb : truthy s.disableClose
        · simpa [step, hb, setTimeoutCount, detachBackdropCount, disposeCount]
            using ih s h1 h4r
        · by_cases hc2 : s.afterDismissedClosed
          · simpa [step, hb, dismiss_of_closed s none hc2, setTimeoutCount,
              detachBackdropCount, disposeCount] using ih s h1 h4r
          · simpa [step, hb, dismiss,
              hc2, setTimeoutCount, detachBackdropCount, disposeCount] using
              ih { s with startSubCount := s.startSubCount + 1, result := none }
                h1 h4r
      | keydown c m =>
        by_cases hc : c = ESCAPE
        · by_cases hb : truthy s.disableClose
          · simpa [step, hc, hb, setTimeoutCount, detachBackdropCount,
              disposeCount] using ih s h1 h4r
          · cases m with
            | true =>
              simpa [step, hc, hb, setTimeoutCount, detachBackdropCount,
                disposeCount] using ih s h1 h4r
            | false =>
              by_cases hc2 : s.afterDismissedClosed
              · simpa [step, hc, hb, dismiss_of_closed s none hc2,
                  setTimeoutCount, detachBackdropCount, disposeCount] using
                  ih s h1 h4r
              · simpa [step, hc, hb, dismiss, hc2, setTimeoutCount,
                  detachBackdropCount, disposeCount] using
                  ih { s with startSubCount := s.startSubCount + 1, result := none } h1 h4r
        · simpa [step, hc, setTimeoutCount, detachBackdropCount, disposeCount]
            using ih s h1 h4r
    | timerFire id =>
      simpa [step, h1, setTimeoutCount, detachBackdropCount, disposeCount]
        using ih s h1 h4r
    | dismissCall r =>
      by_cases hc2 : s.afterDismissedClosed
      · simpa [step, dismiss_of_closed s r hc2, setTimeoutCount,
          detachBackdropCount, disposeCount] using ih s h1 h4r
      · simpa [step, dismiss, hc2, setTimeoutCount, detachBackdropCount,
          disposeCount] using
          ih { s with startSubCount := s.startSubCount + 1, result := r }
            h1 h4r
    | setDisableClose b =>
      simpa [step, setTimeoutCount, detachBackdropCount, disposeCount] using
        ih { s with disableClose := b } h1 h4r

end BottomSheetRef

namespace BottomSheetRef

/-- C1 counterexample: the claim says the overlay surface is disposed exactly
once by whichever disposal path fires first; but if the fallback timer fires
before the done/hidden animation event is delivered, the later done/hidden
delivery disposes a second time (the done/hidden handler has no
already-disposed guard), so the dispose count is 2, not 1. -/
theorem c1_counterexample :
    disposeCount (run (init Nat none)
      [Event.dismissCall none,
       Event.animation ⟨PhaseName.start, ToState.hidden, 0⟩,
       Event.timerFire 0,
       Event.animation ⟨PhaseName.done, ToState.hidden, 0⟩]).2 = 2 := rfl

/-- C1 (amended): if the done/hidden animation event is delivered before the
fallback timer elapses, the overlay surface is disposed exactly once over the
whole remaining run — the done/hidden handler clears the pending fallback
timer so the timer never causes a second dispose — provided dismiss is not
triggered again afterwards.  (If instead the timer fires first, a later
done/hidden delivery disposes a second time; the unit relies on the
collaborator's dispose() being idempotent.) -/
theorem c1_dispose_once_when_done_hidden_first (R : Type) (dc : Option Bool)
    (r : Option R) (t : ToState) (tt t2 : Nat) :
    ∀ (post : List (Event R)), (∀ e ∈ post, isDismissTrigger e = false) →
      disposeCount (run (init R dc)
        (Event.dismissCall r :: Event.animation ⟨PhaseName.start, t, tt⟩ ::
          Event.animation ⟨PhaseName.done, ToState.hidden, t2⟩ :: post)).2 = 1 := by
  intro post hpost
  cases t <;>
  · show disposeCount (run
      (⟨dc, r, false, false, some 0, true, false, true, 0, [], 1⟩ :
        MatBottomSheetRef R) post).2 + 1 = 1
    rw [run_quiet_disposed post
      (⟨dc, r, false, false, some 0, true, false, true, 0, [], 1⟩ :
        MatBottomSheetRef R) rfl rfl rfl hpost]

/-- C1 witness: a concrete done/hidden-first run (with the cleared timer still
attempting to fire afterwards) disposes exactly once. -/
theorem c1_witness :
    (∀ e ∈ ([Event.timerFire 0] : List (Event Nat)),
      isDismissTrigger e = false) ∧
    disposeCount (run (init Nat none)
      (Event.dismissCall (some 1) ::
        Event.animation ⟨PhaseName.start, ToState.hidden, 300⟩ ::
        Event.animation ⟨PhaseName.done, ToState.hidden, 300⟩ ::
        [Event.timerFire 0])).2 = 1 :=
  ⟨by decide,
    c1_dispose_once_when_done_hidden_first Nat none (some 1) ToState.hidden
      300 300 [Event.timerFire 0] (by decide)⟩

/-- C2 counterexample: the claim says two dismiss() calls have the same
observable effect as one (exactly one exit() call); but two programmatic
dismiss() calls before the surface detaches both pass the not-yet-completed
guard and each calls containerInstance.exit(), so exit is called twice. -/
theorem c2_counterexample :
    exitCount (run (init Nat none)
      [Event.dismissCall (some 1), Event.dismissCall (some 2)]).2 = 2 := rfl

/-- C2 (amended): once AfterDismissed has completed (the subject is closed),
any further dismiss() call is a no-op; but before completion each dismiss()
call invokes exit() again, so two back-to-back dismiss() calls produce two
exit() calls (the unit relies on exit() being idempotent). -/
theorem c2_dismiss_idempotent_only_after_completion :
    (∀ (R : Type) (s : MatBottomSheetRef R) (r : Option R),
      s.afterDismissedClosed = true → step s (Event.dismissCall r) = (s, [])) ∧
    (∀ (R : Type) (dc : Option Bool) (r1 r2 : Option R),
      exitCount (run (init R dc)
        [Event.dismissCall r1, Event.dismissCall r2]).2 = 2) := by
  constructor
  · intro R s r h
    simp [step, dismiss_of_closed s r h]
  · intro R dc r1 r2
    rfl

/-- C2 witness: on a concrete state whose AfterDismissed subject is closed,
dismiss() changes nothing and performs no action. -/
theorem c2_witness :
    ((⟨none, none, false, true, none, true, true, false, 0, [], 0⟩ :
        MatBottomSheetRef Nat).afterDismissedClosed = true) ∧
    step (⟨none, none, false, true, none, true, true, false, 0, [], 0⟩ :
        MatBottomSheetRef Nat) (Event.dismissCall (some 5)) =
      ((⟨none, none, false, true, none, true, true, false, 0, [], 0⟩ :
        MatBottomSheetRef Nat), []) :=
  ⟨rfl,
    c2_dismiss_idempotent_only_after_completion.1 Nat
      (⟨none, none, false, true, none, true, true, false, 0, [], 0⟩ :
        MatBottomSheetRef Nat) (some 5) rfl⟩

/-- C3: after dismiss() (with AfterDismissed not yet completed), the first
start-phase animation event arms a fallback timer for totalTime + 100 ms whose
action is dispose(), and detaches the backdrop at that moment; a second start
event arms nothing more (take(1)); and if no done/hidden event is ever
delivered and dismiss is not re-triggered, the timer firing still disposes the
overlay exactly once. -/
theorem c3_fallback_timer_arms_and_disposes (R : Type) (dc : Option Bool)
    (r : Option R) (t : ToState) (tt : Nat) :
    run (init R dc)
        [Event.dismissCall r, Event.animation ⟨PhaseName.start, t, tt⟩] =
      ((⟨dc, r, false, false, some 0, true, true, true, 0, [0], 1⟩ :
          MatBottomSheetRef R),
       [Effect.exitContainer, Effect.setTimeout 0 (tt + 100),
        Effect.detachBackdrop]) ∧
    (∀ (t2 : ToState) (tt2 : Nat),
      step (⟨dc, r, false, false, some 0, true, true, true, 0, [0], 1⟩ :
          MatBottomSheetRef R) (Event.animation ⟨PhaseName.start, t2, tt2⟩) =
        ((⟨dc, r, false, false, some 0, true, true, true, 0, [0], 1⟩ :
          MatBottomSheetRef R), [])) ∧
    (∀ (post : List (Event R)),
      (∀ e ∈ post, isDismissTrigger e = false ∧ isDoneHidden e = false) →
      disposeCount (run (init R dc)
        (Event.dismissCall r :: Event.animation ⟨PhaseName.start, t, tt⟩ ::
          Event.timerFire 0 :: post)).2 = 1) := by
  refine ⟨?_, ?_, ?_⟩
  · cases t <;> rfl
  · intro t2 tt2
    exact step_start_of_zero _ t2 tt2 rfl
  · intro post hpost
    cases t <;>
    · show disposeCount (run
        (⟨dc, r, false, false, some 0, true, true, true, 0, [], 1⟩ :
          MatBottomSheetRef R) post).2 + 1 = 1
      rw [run_quiet_nodonehidden post
        (⟨dc, r, false, false, some 0, true, true, true, 0, [], 1⟩ :
          MatBottomSheetRef R) rfl rfl hpost]

/-- C3 witness: a concrete dismissed run with a start event and no done/hidden
event disposes exactly once when the fallback timer fires, even with a later
surface detachment. -/
theorem c3_witness :
    (∀ e ∈ ([Event.detachment] : List (Event Nat)),
      isDismissTrigger e = false ∧ isDoneHidden e = false) ∧
    disposeCount (run (init Nat none)
      (Event.dismissCall (some 7) ::
        Event.animation ⟨PhaseName.start, ToState.hidden, 300⟩ ::
        Event.timerFire 0 :: [Event.detachment])).2 = 1 :=
  ⟨by decide,
    (c3_fallback_timer_arms_and_disposes Nat none (some 7) ToState.hidden
      300).2.2 [Event.detachment] (by decide)⟩

/-- C5 counterexample: the claim says resultValue is written at most once and
is immutable once set; but a second dismiss() call before the surface detaches
overwrites the stored result (some 1 becomes some 2). -/
theorem c5_counterexample :
    (run (init Nat none) [Event.dismissCall (some 1)]).1.result = some 1 ∧
    (run (init Nat none)
      [Event.dismissCall (some 1), Event.dismissCall (some 2)]).1.result =
      some 2 :=
  ⟨rfl, rfl⟩

/-- C5 (amended): resultValue is written by every dismiss() call made while
AfterDismissed has not completed (a later call overwrites an earlier value);
each write happens inside the dismiss() call itself, whose only collaborator
action is the exit() call that starts the exit animation — so the write
precedes the animation; once AfterDismissed has completed, resultValue is
never written again. -/
theorem c5_result_written_by_each_open_dismiss :
    (∀ (R : Type) (s : MatBottomSheetRef R) (r : Option R),
      s.afterDismissedClosed = false →
      step s (Event.dismissCall r) =
        ({ s with startSubCount := s.startSubCount + 1, result := r },
         [Effect.exitContainer])) ∧
    (∀ (R : Type) (es : List (Event R)) (s : MatBottomSheetRef R),
      s.afterDismissedClosed = true → (run s es).1.result = s.result) := by
  constructor
  · intro R s r h
    simp [step, dismiss_of_open s r h]
  · intro R es s h
    exact (run_frozen es s h).1

/-- C5 witness: on a fresh instance, dismiss(some 4) stores the result and
only calls exit(); after completion a whole run never changes the result. -/
theorem c5_witness :
    ((init Nat none).afterDismissedClosed = false) ∧
    step (init Nat none) (Event.dismissCall (some 4)) =
      ({ init Nat none with startSubCount := 1, result := some 4 },
       [Effect.exitContainer]) :=
  ⟨rfl,
    c5_result_written_by_each_open_dismiss.1 Nat (init Nat none) (some 4) rfl⟩

end BottomSheetRef

namespace BottomSheetRef

/-- C4: on every run of a constructed instance, afterDismissed() emits at most
one notification; an emission can only be produced by a detachment
notification (never directly by the close animation) and carries the stored
result; the detachment handler emits and then completes the subject; and (for
programmatic dismissals) the payload equals the last value passed to dismiss()
before the first detachment, or none if dismiss was never called. -/
theorem c4_after_dismissed_emits_once_on_detachment :
    (∀ (R : Type) (dc : Option Bool) (es : List (Event R)),
      afterDismissedNextCount (run (init R dc) es).2 ≤ 1) ∧
    (∀ (R : Type) (s : MatBottomSheetRef R) (e : Event R) (r : Option R),
      Effect.afterDismissedNext r ∈ (step s e).2 →
      e = Event.detachment ∧ r = s.result) ∧
    (∀ (R : Type) (s : MatBottomSheetRef R),
      s.detachSubActive = true →
      step s Event.detachment =
        ({ s with detachSubActive := false, afterDismissedClosed := true },
         [Effect.afterDismissedNext s.result, Effect.afterDismissedComplete])) ∧
    (∀ (R : Type) (dc : Option Bool) (es : List (Event R)),
      (∀ e ∈ es, isInputEvent e = false) →
      (run (init R dc) es).1.result = lastDismissedFrom none es) := by
  refine ⟨?_, ?_, ?_, ?_⟩
  · intro R dc es
    have h := run_adn es (init R dc)
    rw [show (if (init R dc).detachSubActive then 1 else 0) = 1 from rfl] at h
    omega
  · intro R s e r h
    exact adn_mem_step s e r h
  · intro R s h
    simp [step, h]
  · intro R dc es h
    exact run_result_tracks es (init R dc) rfl rfl h

/-- C4 witness: on a concrete run with two dismiss calls around a detachment,
the stored result at the end equals the last value dismissed before the first
detachment (the post-detachment dismiss writes nothing). -/
theorem c4_witness :
    (∀ e ∈ ([Event.dismissCall (some 9), Event.detachment,
        Event.dismissCall (some 3)] : List (Event Nat)),
      isInputEvent e = false) ∧
    (run (init Nat none)
        [Event.dismissCall (some 9), Event.detachment,
         Event.dismissCall (some 3)]).1.result =
      lastDismissedFrom none
        [Event.dismissCall (some 9), Event.detachment,
         Event.dismissCall (some 3)] :=
  ⟨by decide,
    c4_after_dismissed_emits_once_on_detachment.2.2.2 Nat none
      [Event.dismissCall (some 9), Event.detachment,
       Event.dismissCall (some 3)] (by decide)⟩

/-- C6: on every run of a constructed instance, afterOpened() emits at most
one (no-payload) notification; an emission can only be produced by a
done/visible animation event; the first such event makes the subject emit and
then complete; and if no done/visible event is ever delivered the stream never
emits. -/
theorem c6_after_opened_emits_once_on_done_visible :
    (∀ (R : Type) (dc : Option Bool) (es : List (Event R)),
      afterOpenedNextCount (run (init R dc) es).2 ≤ 1) ∧
    (∀ (R : Type) (s : MatBottomSheetRef R) (e : Event R),
      Effect.afterOpenedNext ∈ (step s e).2 → isDoneVisible e = true) ∧
    (∀ (R : Type) (s : MatBottomSheetRef R) (tt : Nat),
      s.openedSubActive = true →
      step s (Event.animation ⟨PhaseName.done, ToState.visible, tt⟩) =
        ({ s with openedSubActive := false, afterOpenedClosed := true },
         [Effect.afterOpenedNext, Effect.afterOpenedComplete])) ∧
    (∀ (R : Type) (dc : Option Bool) (es : List (Event R)),
      (∀ e ∈ es, isDoneVisible e = false) →
      afterOpenedNextCount (run (init R dc) es).2 = 0) := by
  refine ⟨?_, ?_, ?_, ?_⟩
  · intro R dc es
    have h := run_aon es (init R dc)
    rw [show (if (init R dc).openedSubActive then 1 else 0) = 1 from rfl] at h
    omega
  · intro R s e h
    exact aon_mem_step s e h
  · intro R s tt h
    simp [step, onAnimation, h]
  · intro R dc es h
    exact run_aon_zero es (init R dc) h

/-- C6 witness: a concrete run containing no done/visible animation event
never emits on afterOpened(). -/
theorem c6_witness :
    (∀ e ∈ ([Event.dismissCall (some 2),
        Event.animation ⟨PhaseName.done, ToState.hidden, 5⟩,
        Event.detachment] : List (Event Nat)),
      isDoneVisible e = false) ∧
    afterOpenedNextCount (run (init Nat none)
      [Event.dismissCall (some 2),
       Event.animation ⟨PhaseName.done, ToState.hidden, 5⟩,
       Event.detachment]).2 = 0 :=
  ⟨by decide,
    c6_after_opened_emits_once_on_done_visible.2.2.2 Nat none
      [Event.dismissCall (some 2),
       Event.animation ⟨PhaseName.done, ToState.hidden, 5⟩,
       Event.detachment] (by decide)⟩

/-- C7: a backdrop click or a modifier-free Escape keydown suppresses the
event's default behavior and invokes dismiss() with no result exactly when the
truthiness of disableClose permits closing; when disableClose is truthy the
event is ignored (no action at all, in particular no exit()); an Escape
keydown with a modifier key held is always ignored, as is any non-Escape
keydown. -/
theorem c7_ui_dismiss_filter :
    (∀ (R : Type) (s : MatBottomSheetRef R),
      truthy s.disableClose = false →
      step s (Event.input InputEvent.backdropClick) =
        ((dismiss s none).1, Effect.preventDefault :: (dismiss s none).2)) ∧
    (∀ (R : Type) (s : MatBottomSheetRef R),
      truthy s.disableClose = true →
      step s (Event.input InputEvent.backdropClick) = (s, [])) ∧
    (∀ (R : Type) (s : MatBottomSheetRef R),
      truthy s.disableClose = false →
      step s (Event.input (InputEvent.keydown ESCAPE false)) =
        ((dismiss s none).1, Effect.preventDefault :: (dismiss s none).2)) ∧
    (∀ (R : Type) (s : MatBottomSheetRef R),
      truthy s.disableClose = true →
      step s (Event.input (InputEvent.keydown ESCAPE false)) = (s, [])) ∧
    (∀ (R : Type) (s : MatBottomSheetRef R),
      step s (Event.input (InputEvent.keydown ESCAPE true)) = (s, [])) ∧
    (∀ (R : Type) (s : MatBottomSheetRef R) (c : Nat) (m : Bool),
      c ≠ ESCAPE → step s (Event.input (InputEvent.keydown c m)) = (s, [])) := by
  refine ⟨?_, ?_, ?_, ?_, ?_, ?_⟩
  · intro R s h
    simp [step, h]
  · intro R s h
    simp [step, h]
  · intro R s h
    simp [step, h]
  · intro R s h
    simp [step, h]
  · intro R s
    simp [step]
  · intro R s c m h
    simp [step, h]

/-- C7 witness: on a fresh instance whose config left disableClose undefined,
a backdrop click prevents the default behavior and dismisses with no result,
while Shift+Escape does nothing. -/
theorem c7_witness :
    (truthy (init Nat none).disableClose = false) ∧
    step (init Nat none) (Event.input InputEvent.backdropClick) =
      ((dismiss (init Nat none) none).1,
       Effect.preventDefault :: (dismiss (init Nat none) none).2) ∧
    step (init Nat none) (Event.input (InputEvent.keydown ESCAPE true)) =
      (init Nat none, []) :=
  ⟨rfl, c7_ui_dismiss_filter.1 Nat (init Nat none) rfl,
    c7_ui_dismiss_filter.2.2.2.2.1 Nat (init Nat none)⟩

end BottomSheetRef

namespace BottomSheetRef

/-- C8: the value of the mutable disableClose field does not influence
programmatic dismiss() at all: for any two states differing only in
disableClose, dismiss(result) produces identical collaborator actions and
identical successor states up to that field. -/
theorem c8_disable_close_noninterference_with_dismiss (R : Type)
    (s : MatBottomSheetRef R) (b1 b2 : Option Bool) (r : Option R) :
    (step { s with disableClose := b1 } (Event.dismissCall r)).2 =
      (step { s with disableClose := b2 } (Event.dismissCall r)).2 ∧
    (step { s with disableClose := b1 } (Event.dismissCall r)).1 =
      { (step { s with disableClose := b2 } (Event.dismissCall r)).1 with
          disableClose := b1 } := by
  by_cases h : s.afterDismissedClosed <;> simp [step, dismiss, h]

/-- C9: if, after dismiss(), the container delivers no start-phase animation
event and no done/hidden animation event, then the unit never arms a fallback
timer, never detaches the backdrop, and never disposes the overlay surface —
regardless of further dismiss triggers, detachments, done/visible events or
timer queries. -/
theorem c9_no_timer_without_start_event (R : Type) (dc : Option Bool)
    (r : Option R) (es : List (Event R))
    (h : ∀ e ∈ es, isStartPhase e = false ∧ isDoneHidden e = false) :
    setTimeoutCount (run (init R dc) (Event.dismissCall r :: es)).2 = 0 ∧
      detachBackdropCount (run (init R dc) (Event.dismissCall r :: es)).2 = 0 ∧
      disposeCount (run (init R dc) (Event.dismissCall r :: es)).2 = 0 := by
  refine run_nostart (Event.dismissCall r :: es) (init R dc) rfl ?_
  intro e he
  rcases List.mem_cons.mp he with he | he
  · subst he
    exact ⟨rfl, rfl⟩
  · exact h e he

/-- C9 witness: after a concrete dismiss followed only by a done/visible
animation event and a detachment, no timer is armed, no backdrop detached, no
dispose issued. -/
theorem c9_witness :
    (∀ e ∈ ([Event.animation ⟨PhaseName.done, ToState.visible, 5⟩,
        Event.detachment, Event.timerFire 0] : List (Event Nat)),
      isStartPhase e = false ∧ isDoneHidden e = false) ∧
    (setTimeoutCount (run (init Nat none)
        (Event.dismissCall (some 3) ::
          [Event.animation ⟨PhaseName.done, ToState.visible, 5⟩,
           Event.detachment, Event.timerFire 0])).2 = 0 ∧
      detachBackdropCount (run (init Nat none)
        (Event.dismissCall (some 3) ::
          [Event.animation ⟨PhaseName.done, ToState.visible, 5⟩,
           Event.detachment, Event.timerFire 0])).2 = 0 ∧
      disposeCount (run (init Nat none)
        (Event.dismissCall (some 3) ::
          [Event.animation ⟨PhaseName.done, ToState.visible, 5⟩,
           Event.detachment, Event.timerFire 0])).2 = 0) :=
  ⟨by decide,
    c9_no_timer_without_start_event Nat none (some 3)
      [Event.animation ⟨PhaseName.done, ToState.visible, 5⟩,
       Event.detachment, Event.timerFire 0] (by decide)⟩

/-- C10: the constructor copies containerInstance.bottomSheetConfig.disableClose
(possibly undefined) into the public disableClose field, and an undefined
disableClose behaves exactly like false for every backdrop-click/keydown
delivery: the actions and the successor state (up to the field itself) are
identical. -/
theorem c10_undefined_disable_close_behaves_like_false :
    (∀ (R : Type) (c : MatBottomSheetContainer),
      (mkRef R c).disableClose = c.bottomSheetConfig.disableClose) ∧
    (∀ (R : Type) (s : MatBottomSheetRef R) (ie : InputEvent),
      (step { s with disableClose := none } (Event.input ie)).2 =
        (step { s with disableClose := some false } (Event.input ie)).2 ∧
      (step { s with disableClose := none } (Event.input ie)).1 =
        { (step { s with disableClose := some false }
            (Event.input ie)).1 with disableClose := none }) := by
  constructor
  · intro R c
    rfl
  · intro R s ie
    cases ie with
    | backdropClick =>
      by_cases h : s.afterDismissedClosed <;> simp [step, truthy, dismiss, h]
    | keydown c m =>
      by_cases hc : c = ESCAPE <;>
        cases m <;>
          by_cases h : s.afterDismissedClosed <;>
            simp [step, hc, truthy, dismiss, h]

end BottomSheetRef
